import Mathlib

/-
  Shallow embedding of sjansen/dynamostore (src/dynamostore.go).

  The store talks to a DynamoDB backend; here the backend's responses are
  passed in explicitly (initial describe result, a stream of describe results
  for the wait loop, and the outcomes of the create-table / update-TTL / item
  calls).  Side-effecting backend calls are recorded in an action trace so
  that claims about "no backend call issued" can be stated.
-/

namespace Dynamostore

/-- Errors returned by the store (dynamostore.go: ErrDeleteInProgress,
ErrCreateTimedOut, the "unrecognized table status" error, plus errors
propagated from the backend client or the attributevalue decoder). -/
inductive StoreError where
  | deleteInProgress
  | createTimedOut
  | unrecognizedStatus (s : String)
  | backend (e : String)
  | decodeError (e : String)
deriving DecidableEq, Repr

/-- DynamoDB table status as observed by DescribeTable.  Statuses outside the
four the Go switches name are kept as `other` with the raw string. -/
inductive TableStatus where
  | creating
  | deleting
  | active
  | updating
  | other (s : String)
deriving DecidableEq, Repr

/-- Outcome of one DescribeTable call: success with a status, a
ResourceNotFoundException, or any other client error. -/
inductive DescribeResult where
  | ok (st : TableStatus)
  | notFound
  | err (e : String)
deriving DecidableEq, Repr

/-- How one iteration of the wait loop reacts to a describe outcome:
keep polling, exit with success, or exit with an error. -/
inductive Step where
  | cont
  | exitOk
  | exitErr (e : StoreError)
deriving DecidableEq, Repr

/-- The branch the body of waitForTable's loop takes on a describe outcome
(dynamostore.go lines 222-237).  A status outside the switch's cases falls
through and the loop continues. -/
def stepOf : DescribeResult → Step
  | .notFound => .exitOk
  | .err e => .exitErr (.backend e)
  | .ok .creating => .cont
  | .ok .deleting => .exitErr .deleteInProgress
  | .ok .active => .exitOk
  | .ok .updating => .exitOk
  | .ok (.other _) => .cont

/-- waitForTable's loop (dynamostore.go lines 220-239): `polls i` is the
result of the describe issued on iteration i, `fuel` the number of
iterations left, `i` the current iteration index.  The Go loop runs
`for i := 0; i < 60; i++` and returns ErrCreateTimedOut after the loop. -/
def waitForTableAux (polls : Nat → DescribeResult) : Nat → Nat → Except StoreError Unit
  | 0, _ => .error .createTimedOut
  | fuel+1, i =>
    match polls i with
    | .notFound => .ok ()
    | .err e => .error (.backend e)
    | .ok .creating => waitForTableAux polls fuel (i+1)
    | .ok .deleting => .error .deleteInProgress
    | .ok .active => .ok ()
    | .ok .updating => .ok ()
    | .ok (.other _) => waitForTableAux polls fuel (i+1)

/-- waitForTable (dynamostore.go lines 216-240): at most 60 polls. -/
def waitForTable (polls : Nat → DescribeResult) : Except StoreError Unit :=
  waitForTableAux polls 60 0

/-- checkForTable (dynamostore.go lines 107-129): `describe` is the result of
the initial DescribeTable; `polls` feeds the wait loop entered on the
`creating` branch.  Returns (found : Bool) or an error; in Go the creating
branch returns `(true, s.waitForTable(ctx))` and CreateTable checks the
error before the boolean, which the Except models. -/
def checkForTable (describe : DescribeResult) (polls : Nat → DescribeResult) :
    Except StoreError Bool :=
  match describe with
  | .notFound => .ok false
  | .err e => .error (.backend e)
  | .ok .creating =>
    match waitForTable polls with
    | .ok () => .ok true
    | .error e => .error e
  | .ok .deleting => .error .deleteInProgress
  | .ok .active => .ok true
  | .ok .updating => .ok true
  | .ok (.other s) => .error (.unrecognizedStatus ("unrecognized table status: " ++ s))

/-- Side-effecting backend calls the store can issue, recorded in order. -/
inductive Action where
  | createTableCall
  | updateTTLCall
  | deleteItemCall
deriving DecidableEq, Repr

/-- The backend's behaviour for one CreateTable run: the initial describe
result, the outcome of the CreateTable call (`none` = success), the stream
of describe results seen by the wait loop, and the outcome of the
UpdateTimeToLive call (`none` = success). -/
structure Backend where
  describe : DescribeResult
  create : Option String
  polls : Nat → DescribeResult
  ttl : Option String

/-- CreateTable (dynamostore.go lines 91-105): check for the table; if found
(or on error) stop; otherwise create it, wait for it, then enable TTL on
the "ttl" attribute (updateTTL, lines 204-214).  Returns the result paired
with the trace of side-effecting backend calls issued, in order: the
create-table request is issued before the wait loop runs, and the
update-TTL request only after the wait loop succeeds. -/
def CreateTable (b : Backend) : Except StoreError Unit × List Action :=
  match checkForTable b.describe b.polls with
  | .error e => (.error e, [])
  | .ok true => (.ok (), [])
  | .ok false =>
    match b.create with
    | some e => (.error (.backend e), [.createTableCall])
    | none =>
      match waitForTable b.polls with
      | .error e => (.error e, [.createTableCall])
      | .ok () =>
        match b.ttl with
        | some e => (.error (.backend e), [.createTableCall, .updateTTLCall])
        | none => (.ok (), [.createTableCall, .updateTTLCall])

/-- A Go time.Time: seconds since the Unix epoch plus a nanosecond part in
[0, 1e9).  DynamoDB's unixtime encoding keeps only `sec`. -/
structure Time where
  sec : Int
  nsec : Nat
deriving DecidableEq, Repr

/-- time.Time.Before: lexicographic comparison of (sec, nsec). -/
def Time.before (t u : Time) : Bool :=
  t.sec < u.sec || (t.sec == u.sec && t.nsec < u.nsec)

/-- The zero value of Go's time.Time (Jan 1, year 1 UTC) expressed in Unix
seconds; produced when UnmarshalMap leaves the TTL field untouched. -/
def zeroTime : Time := ⟨-62135596800, 0⟩

/-- sessionItem (dynamostore.go lines 33-37): the logical record.  `data`
models the []byte payload as a list of bytes. -/
structure SessionItem where
  token : String
  data : List Nat
  ttl : Time
deriving DecidableEq, Repr

/-- The DynamoDB attribute values the codec uses: S (string), N (number,
here the unixtime integer), B (binary), and NULL. -/
inductive AttributeValue where
  | s (v : String)
  | n (v : Int)
  | b (v : List Nat)
  | null
deriving DecidableEq, Repr

/-- A wire item: the attribute map of a DynamoDB item, as an association
list.  The empty list models a GetItem response with no item. -/
def Item : Type := List (String × AttributeValue)

/-- Look up an attribute by name. -/
def lookupAV (k : String) (item : Item) : Option AttributeValue :=
  (List.find? (fun p => p.1 == k) item).map Prod.snd

/-- attributevalue.MarshalMap of a sessionItem (setItem, lines 187-202): the
token as a string attribute "token", the payload under the default field
name "Data" (NULL when empty, per the encoder's NullEmptyByteSlice
default), and the expiry as the "ttl" number attribute holding
expiry.Unix(), i.e. whole seconds — the sub-second part is dropped. -/
def marshalSessionItem (it : SessionItem) : Item :=
  [("token", .s it.token),
   ("Data", if it.data.isEmpty then .null else .b it.data),
   ("ttl", .n it.ttl.sec)]

/-- Decode the "token" attribute: a missing or NULL attribute leaves the
zero value (empty string); a non-string attribute is a decode error. -/
def unmarshalTokenAV : Option AttributeValue → Except String String
  | none => .ok ""
  | some (.s v) => .ok v
  | some .null => .ok ""
  | some _ => .error "unmarshal error: token is not a string"

/-- Decode the "Data" attribute: missing or NULL yields the zero value
(no bytes); a non-binary attribute is a decode error. -/
def unmarshalDataAV : Option AttributeValue → Except String (List Nat)
  | none => .ok []
  | some (.b v) => .ok v
  | some .null => .ok []
  | some _ => .error "unmarshal error: data is not binary"

/-- Decode the "ttl" attribute (unixtime): a number N becomes
time.Unix(N, 0); missing or NULL leaves the zero time.Time; any other
attribute type is a decode error. -/
def unmarshalTTLAV : Option AttributeValue → Except String Time
  | none => .ok zeroTime
  | some (.n v) => .ok ⟨v, 0⟩
  | some .null => .ok zeroTime
  | some _ => .error "unmarshal error: ttl is not a number"

/-- attributevalue.UnmarshalMap into a sessionItem (getItem, lines 178-182):
each field decodes independently; absent attributes leave zero values, so
the empty map decodes to the zero sessionItem without error. -/
def unmarshalSessionItem (item : Item) : Except String SessionItem := do
  let token ← unmarshalTokenAV (lookupAV "token" item)
  let data ← unmarshalDataAV (lookupAV "Data" item)
  let ttl ← unmarshalTTLAV (lookupAV "ttl" item)
  .ok ⟨token, data, ttl⟩

/-- getItem (dynamostore.go lines 164-185): `resp` is the backend's GetItem
response for the requested token — an error, or the item map (empty when
the key is absent).  A backend error propagates; otherwise the map is
decoded, and a decode failure is returned as an error. -/
def getItem (resp : Except String Item) : Except StoreError SessionItem :=
  match resp with
  | .error e => .error (.backend e)
  | .ok item =>
    match unmarshalSessionItem item with
    | .error e => .error (.decodeError e)
    | .ok it => .ok it

/-- Find (dynamostore.go lines 56-68).  Go returns (b, exists, err); this is
modelled as Except err (Option bytes): `.ok none` is (nil, false, nil) and
`.ok (some d)` is (d, true, nil).  An empty decoded token or a TTL strictly
before `now` yields absence. -/
def Find (resp : Except String Item) (now : Time) :
    Except StoreError (Option (List Nat)) :=
  match getItem resp with
  | .error e => .error e
  | .ok it =>
    if it.token = "" then .ok none
    else if it.ttl.before now then .ok none
    else .ok (some it.data)

/-- Delete (dynamostore.go lines 80-86): an empty token returns nil before
any backend call; otherwise deleteItem is issued and its result (`resp`,
`none` = success) is returned.  Paired with the trace of backend calls. -/
def Delete (resp : Option String) (token : String) :
    Except StoreError Unit × List Action :=
  if token = "" then (.ok (), [])
  else
    match resp with
    | some e => (.error (.backend e), [.deleteItemCall])
    | none => (.ok (), [.deleteItemCall])

/-! ### Helper lemmas about the wait loop -/

/-- Unfolding one iteration of the wait loop through `stepOf`. -/
theorem waitAux_step (polls : Nat → DescribeResult) (f i : Nat) :
    waitForTableAux polls (f+1) i =
      match stepOf (polls i) with
      | .cont => waitForTableAux polls f (i+1)
      | .exitOk => .ok ()
      | .exitErr e => .error e := by
  cases h : polls i with
  | ok st => cases st <;> simp [waitForTableAux, stepOf, h]
  | notFound => simp [waitForTableAux, stepOf, h]
  | err e => simp [waitForTableAux, stepOf, h]

/-- The wait loop's result only depends on how each visited poll steps. -/
theorem waitAux_congr (polls polls' : Nat → DescribeResult) :
    ∀ (fuel i : Nat), (∀ j, i ≤ j → j < i + fuel → stepOf (polls j) = stepOf (polls' j)) →
      waitForTableAux polls fuel i = waitForTableAux polls' fuel i := by
  intro fuel
  induction fuel with
  | zero => intro i _; rfl
  | succ f ih =>
    intro i h
    rw [waitAux_step, waitAux_step]
    have hi : stepOf (polls i) = stepOf (polls' i) := h i (le_refl i) (by omega)
    rw [hi]
    cases hstep : stepOf (polls' i) with
    | cont => exact ih (i+1) (fun j hj1 hj2 => h j (by omega) (by omega))
    | exitOk => rfl
    | exitErr e => rfl

/-- Skipping over a block of polls on which the loop continues. -/
theorem waitAux_skip (polls : Nat → DescribeResult) :
    ∀ (m fuel k : Nat), m ≤ fuel → (∀ j, j < m → stepOf (polls (k+j)) = .cont) →
      waitForTableAux polls fuel k = waitForTableAux polls (fuel - m) (k + m) := by
  intro m
  induction m with
  | zero => intro fuel k _ _; simp
  | succ p ih =>
    intro fuel k hm h
    obtain ⟨f, rfl⟩ : ∃ f, fuel = f + 1 := ⟨fuel - 1, by omega⟩
    rw [waitAux_step]
    have h0 : stepOf (polls k) = .cont := by simpa using h 0 (Nat.succ_pos p)
    simp only [h0]
    have hrec := ih f (k+1) (by omega) (fun j hj => by
      have := h (j+1) (by omega)
      simpa [Nat.add_assoc, Nat.add_comm 1 j] using this)
    rw [hrec]
    congr 1 <;> omega

/-- If the first `i` polls all continue the loop, the outcome of poll `i`
decides the loop's result (for `i` within the 60-poll bound). -/
theorem wait_first_hit (polls : Nat → DescribeResult) (i : Nat) (hi : i < 60)
    (hbefore : ∀ j, j < i → stepOf (polls j) = .cont) :
    (stepOf (polls i) = .exitOk → waitForTable polls = .ok ())
    ∧ (∀ e, stepOf (polls i) = .exitErr e → waitForTable polls = .error e) := by
  have hskip := waitAux_skip polls i 60 0 (by omega) (fun j hj => by
    simpa using hbefore j hj)
  simp only [Nat.zero_add] at hskip
  obtain ⟨f, hf⟩ : ∃ f, 60 - i = f + 1 := ⟨59 - i, by omega⟩
  constructor
  · intro h
    unfold waitForTable
    rw [hskip, hf, waitAux_step, h]
  · intro e h
    unfold waitForTable
    rw [hskip, hf, waitAux_step, h]

/-! ### Claim theorems -/

/-- C2: CreateTable is idempotent on an existing table: when the initial
describe reports the table as active or updating, it returns success and
issues no create-table call and no update-TTL call (the action trace is
empty), so a second call on a freshly active table produces no error and
no duplicate side effects. -/
theorem createTable_idempotent_on_active (b : Backend)
    (h : b.describe = .ok .active ∨ b.describe = .ok .updating) :
    CreateTable b = (.ok (), []) := by
  rcases h with h | h <;> simp [CreateTable, checkForTable, h]

/-- Witness for C2: a backend whose table is already active. -/
theorem createTable_idempotent_on_active_witness :
    CreateTable ⟨.ok .active, none, fun _ => .notFound, none⟩ = (.ok (), []) :=
  createTable_idempotent_on_active ⟨.ok .active, none, fun _ => .notFound, none⟩
    (Or.inl rfl)

/-- C3: Delete with an empty token returns no error and issues no backend
call (empty action trace, regardless of what the backend would answer);
Delete of a non-empty token for which the backend's unconditional delete
succeeds (as it does for a non-existent key) returns no error. -/
theorem delete_empty_noop_and_missing_ok (resp : Option String) (token : String) :
    Delete resp "" = (.ok (), [])
    ∧ (token ≠ "" → resp = none → Delete resp token = (.ok (), [.deleteItemCall])) := by
  constructor
  · rfl
  · intro ht hr
    simp [Delete, ht, hr]

/-- Witness for C3: the empty token short-circuits; a present token with a
successful backend delete returns no error. -/
theorem delete_empty_noop_and_missing_ok_witness :
    Delete (some "boom") "" = (.ok (), [])
    ∧ Delete none "missing-token" = (.ok (), [.deleteItemCall]) :=
  ⟨(delete_empty_noop_and_missing_ok (some "boom") "x").1,
   (delete_empty_noop_and_missing_ok none "missing-token").2 (by decide) rfl⟩

/-- C4: whenever a describe reports the table status as deleting —
the initial describe, or poll `i` of the wait loop (the first poll not
reporting creating) — CreateTable fails with DeleteInProgress and never
issues a create-table call afterwards: the trace is empty on the initial
and creating paths, and on the fresh-create path holds only the single
create call issued before the wait loop ran. -/
theorem deleting_status_fails_delete_in_progress (b : Backend) (i : Nat)
    (hi : i < 60) (hbefore : ∀ j, j < i → b.polls j = .ok .creating)
    (hdel : b.polls i = .ok .deleting) :
    (b.describe = .ok .deleting → CreateTable b = (.error .deleteInProgress, []))
    ∧ (b.describe = .ok .creating → CreateTable b = (.error .deleteInProgress, []))
    ∧ (b.describe = .notFound → b.create = none →
        CreateTable b = (.error .deleteInProgress, [.createTableCall])) := by
  have hw : waitForTable b.polls = .error .deleteInProgress :=
    (wait_first_hit b.polls i hi (fun j hj => by rw [hbefore j hj]; rfl)).2
      .deleteInProgress (by rw [hdel]; rfl)
  refine ⟨fun hd => ?_, fun hd => ?_, fun hd hc => ?_⟩
  · simp [CreateTable, checkForTable, hd]
  · simp [CreateTable, checkForTable, hd, hw]
  · simp [CreateTable, checkForTable, hd, hc, hw]

/-- Witness for C4: a table reported as deleting by the initial describe
fails with DeleteInProgress and no backend mutation is attempted. -/
theorem deleting_status_fails_delete_in_progress_witness :
    CreateTable ⟨.ok .deleting, none, fun _ => .ok .deleting, none⟩ =
      (.error .deleteInProgress, []) :=
  (deleting_status_fails_delete_in_progress
    ⟨.ok .deleting, none, fun _ => .ok .deleting, none⟩ 0 (by decide)
    (fun j hj => absurd hj (Nat.not_lt_zero j)) rfl).1 rfl

/-- C5: the wait loop performs at most 60 polls — its result is unchanged by
anything the backend would answer from poll 60 on — and when all 60 polls
complete with a status that is neither active, updating, deleting, nor a
not-found outcome (i.e. creating or an unrecognized status), it fails with
CreateTimedOut.  Termination is inherent: waitForTable is a total function
of its first 60 polls. -/
theorem waitForTable_bounded_sixty_polls (polls polls' : Nat → DescribeResult)
    (hagree : ∀ i, i < 60 → polls i = polls' i) :
    waitForTable polls = waitForTable polls'
    ∧ ((∀ i, i < 60 → polls i = .ok .creating ∨ ∃ s, polls i = .ok (.other s)) →
        waitForTable polls = .error .createTimedOut) := by
  constructor
  · exact waitAux_congr polls polls' 60 0 (fun j _ h2 => by rw [hagree j (by omega)])
  · intro hall
    have hskip := waitAux_skip polls 60 60 0 (le_refl 60) (fun j hj => by
      rcases hall j hj with h | ⟨s, h⟩ <;> simp [h, stepOf])
    simpa [waitForTable, waitForTableAux] using hskip

/-- Witness for C5: a table that never leaves the creating state times out,
and changing polls from index 60 on does not affect the result. -/
theorem waitForTable_bounded_sixty_polls_witness :
    waitForTable (fun _ => .ok .creating) =
      waitForTable (fun i => if i < 60 then .ok .creating else .notFound)
    ∧ waitForTable (fun _ => .ok .creating) = .error .createTimedOut :=
  ⟨(waitForTable_bounded_sixty_polls (fun _ => .ok .creating)
      (fun i => if i < 60 then .ok .creating else .notFound)
      (fun i hi => by simp [hi])).1,
   (waitForTable_bounded_sixty_polls (fun _ => .ok .creating) (fun _ => .ok .creating)
      (fun _ _ => rfl)).2 (fun i _ => Or.inl rfl)⟩

/-- C6: when the polls before index `i` keep the loop going (status
creating) and poll `i` fails, a not-found failure makes the loop exit
immediately with success, while any other describe failure is propagated
immediately to the caller. -/
theorem waitForTable_notFound_benign_error_propagates (polls : Nat → DescribeResult)
    (i : Nat) (hi : i < 60) (hbefore : ∀ j, j < i → polls j = .ok .creating) :
    (polls i = .notFound → waitForTable polls = .ok ())
    ∧ (∀ e, polls i = .err e → waitForTable polls = .error (.backend e)) := by
  have h := wait_first_hit polls i hi (fun j hj => by rw [hbefore j hj]; rfl)
  exact ⟨fun hnf => h.1 (by rw [hnf]; rfl),
         fun e he => h.2 (.backend e) (by rw [he]; rfl)⟩

/-- Witness for C6: a poll answered not-found exits the loop without error;
a poll answered with another failure propagates it. -/
theorem waitForTable_notFound_benign_error_propagates_witness :
    waitForTable (fun _ => .notFound) = .ok ()
    ∧ waitForTable (fun _ => .err "throttled") = .error (.backend "throttled") :=
  ⟨(waitForTable_notFound_benign_error_propagates (fun _ => .notFound) 0 (by decide)
      (fun j hj => absurd hj (Nat.not_lt_zero j))).1 rfl,
   (waitForTable_notFound_benign_error_propagates (fun _ => .err "throttled") 0 (by decide)
      (fun j hj => absurd hj (Nat.not_lt_zero j))).2 "throttled" rfl⟩

/-- C9: a successful describe inside the wait loop reporting a status
outside the known set is not an error — the loop behaves exactly as if the
status were creating (replacing the unrecognized poll result by creating
leaves the loop's result unchanged) — unlike the initial describe, where
checkForTable fails on an unrecognized status. -/
theorem unknown_status_continues_polling (polls : Nat → DescribeResult) (s : String)
    (i : Nat) (hi : i < 60) (hstat : polls i = .ok (.other s)) :
    waitForTable polls = waitForTable (Function.update polls i (.ok .creating))
    ∧ checkForTable (.ok (.other s)) polls =
        .error (.unrecognizedStatus ("unrecognized table status: " ++ s)) := by
  constructor
  · apply waitAux_congr
    intro j _ _
    by_cases hj : j = i
    · subst hj
      rw [hstat]
      simp [Function.update, stepOf]
    · simp [Function.update, hj]
  · rfl

/-- Witness for C9: a backend stuck reporting an unrecognized status. -/
theorem unknown_status_continues_polling_witness :
    waitForTable (fun _ => .ok (.other "ARCHIVED")) =
      waitForTable (Function.update (fun _ => .ok (.other "ARCHIVED")) 0 (.ok .creating))
    ∧ checkForTable (.ok (.other "ARCHIVED")) (fun _ => .ok (.other "ARCHIVED")) =
        .error (.unrecognizedStatus ("unrecognized table status: " ++ "ARCHIVED")) :=
  unknown_status_continues_polling (fun _ => .ok (.other "ARCHIVED")) "ARCHIVED" 0
    (by decide) rfl

/-- C7: the update-TTL call is issued exactly when the fresh-create path
succeeds — initial describe returned not-found, the create call succeeded,
and the wait loop returned success — and never on the already-existing
path; when the update-TTL call itself fails, its error is returned to the
caller as-is (no retry: the trace holds a single update-TTL call). -/
theorem updateTTL_only_on_fresh_create (b : Backend) :
    (Action.updateTTLCall ∈ (CreateTable b).2 ↔
      (b.describe = .notFound ∧ b.create = none ∧ waitForTable b.polls = .ok ()))
    ∧ (∀ e, b.describe = .notFound → b.create = none →
        waitForTable b.polls = .ok () → b.ttl = some e →
        CreateTable b = (.error (.backend e), [.createTableCall, .updateTTLCall])) := by
  constructor
  · cases hd : b.describe with
    | notFound =>
      cases hc : b.create with
      | some e => simp [CreateTable, checkForTable, hd, hc]
      | none =>
        cases hw : waitForTable b.polls with
        | error e => simp [CreateTable, checkForTable, hd, hc, hw]
        | ok u =>
          cases u
          cases ht : b.ttl <;> simp [CreateTable, checkForTable, hd, hc, hw, ht]
    | err e => simp [CreateTable, checkForTable, hd]
    | ok st =>
      cases st with
      | creating =>
        cases hw : waitForTable b.polls with
        | error e => simp [CreateTable, checkForTable, hd, hw]
        | ok u => cases u; simp [CreateTable, checkForTable, hd, hw]
      | deleting => simp [CreateTable, checkForTable, hd]
      | active => simp [CreateTable, checkForTable, hd]
      | updating => simp [CreateTable, checkForTable, hd]
      | other s => simp [CreateTable, checkForTable, hd]
  · intro e hd hc hw ht
    simp [CreateTable, checkForTable, hd, hc, hw, ht]

/-- Witness for C7: a fresh create whose TTL activation fails: the error is
returned as-is and the trace shows create then a single update-TTL call. -/
theorem updateTTL_only_on_fresh_create_witness :
    (Action.updateTTLCall ∈
      (CreateTable ⟨.notFound, none, fun _ => .ok .active, some "denied"⟩).2)
    ∧ CreateTable ⟨.notFound, none, fun _ => .ok .active, some "denied"⟩ =
        (.error (.backend "denied"), [.createTableCall, .updateTTLCall]) :=
  ⟨(updateTTL_only_on_fresh_create
      ⟨.notFound, none, fun _ => .ok .active, some "denied"⟩).1.mpr
      ⟨rfl, rfl, rfl⟩,
   (updateTTL_only_on_fresh_create
      ⟨.notFound, none, fun _ => .ok .active, some "denied"⟩).2 "denied"
      rfl rfl rfl rfl⟩

/-- C8: encoding a record to the wire item and decoding it back reproduces
the token and payload bytes exactly, and the expiry truncated to whole
Unix seconds (the backend's native unixtime resolution: the nanosecond
part is dropped, the seconds are kept). -/
theorem codec_roundtrip (tok : String) (data : List Nat) (expiry : Time) :
    unmarshalSessionItem (marshalSessionItem ⟨tok, data, expiry⟩) =
      .ok ⟨tok, data, ⟨expiry.sec, 0⟩⟩ := by
  cases data <;> rfl

/-- C1 (amended): a stored item that decodes successfully and whose decoded
expiry is strictly before the current time is reported absent by Find: no
payload, exists = false, no error — regardless of whether the backend has
physically removed the record. -/
theorem find_expired_strictly_before (item : Item) (it : SessionItem) (now : Time)
    (hdec : unmarshalSessionItem item = .ok it)
    (hexp : it.ttl.before now = true) :
    Find (.ok item) now = .ok none := by
  simp [Find, getItem, hdec, hexp]

/-- Witness for C1: an item that expired one second ago is reported absent. -/
theorem find_expired_strictly_before_witness :
    Find (.ok (marshalSessionItem ⟨"a", [1], ⟨100, 0⟩⟩)) ⟨101, 0⟩ = .ok none :=
  find_expired_strictly_before (marshalSessionItem ⟨"a", [1], ⟨100, 0⟩⟩)
    ⟨"a", [1], ⟨100, 0⟩⟩ ⟨101, 0⟩ rfl (by decide)

/-- Counterexample to C1 as stated: an item whose decoded expiry is AT the
current time (expiry = now = 100s) is returned by Find with its payload
and exists = true, because the code tests TTL.Before(now) strictly;
the claim demands exists = false with no payload for expiry at or before
the current time. -/
theorem find_at_expiry_counterexample :
    unmarshalSessionItem (marshalSessionItem ⟨"a", [1], ⟨100, 0⟩⟩) =
      .ok ⟨"a", [1], ⟨100, 0⟩⟩
    ∧ Find (.ok (marshalSessionItem ⟨"a", [1], ⟨100, 0⟩⟩)) ⟨100, 0⟩ =
      .ok (some [1]) :=
  ⟨rfl, rfl⟩

/-- C10: Find signals absence solely by the decoded token being empty: any
backend response that decodes without error to an item with an empty (or
missing) token field yields (nil, false, nil), the empty response for a
truly absent key included; an item physically lacking a token attribute
still decodes without error (to the empty token), so it never surfaces as
a decode error and is indistinguishable from a record that never existed. -/
theorem find_absence_iff_empty_token (item : Item) (it : SessionItem) (now : Time)
    (hdec : unmarshalSessionItem item = .ok it) (htok : it.token = "") :
    Find (.ok item) now = .ok none
    ∧ Find (.ok []) now = .ok none
    ∧ unmarshalSessionItem [("Data", .b [1]), ("ttl", .n 100)] =
        .ok ⟨"", [1], ⟨100, 0⟩⟩ := by
  refine ⟨?_, ?_, rfl⟩
  · simp [Find, getItem, hdec, htok]
  · rfl

/-- Witness for C10: a stored item lacking the token attribute decodes
cleanly and is reported absent, like the empty response. -/
theorem find_absence_iff_empty_token_witness :
    Find (.ok [("Data", .b [1]), ("ttl", .n 100)]) ⟨0, 0⟩ = .ok none
    ∧ Find (.ok []) ⟨0, 0⟩ = .ok none
    ∧ unmarshalSessionItem [("Data", .b [1]), ("ttl", .n 100)] =
        .ok ⟨"", [1], ⟨100, 0⟩⟩ :=
  find_absence_iff_empty_token [("Data", .b [1]), ("ttl", .n 100)]
    ⟨"", [1], ⟨100, 0⟩⟩ ⟨0, 0⟩ rfl rfl

end Dynamostore
